import Mathlib

/-!
Verification of the travel-planning assistant core (agent.py, bot.py,
weather_stack_service.py) against its specification.

The Python code is shallowly embedded: per-user mutable dictionaries become
explicit Lean structures with `Option` fields (a `none` field models an
absent dictionary key), stage values are the integers of `PLANNING_STAGES`,
and dictionary accesses that can raise `KeyError` are modelled by functions
returning `Except String`.  Remote services (Google Maps, Yelp,
WeatherStack, the Mistral chat endpoint) are modelled as explicit
environment parameters holding their per-call results.
-/

/-! ## String helpers (Python `str` semantics on ASCII text) -/

/-- Python regex `\s` on ASCII text: the six ASCII whitespace characters. -/
def pySpace (c : Char) : Bool :=
  c = ' ' || c = '\t' || c = '\n' || c = '\r' || c = '\x0b' || c = '\x0c'

/-- Python `str.lower()` (ASCII case folding, which all keyword sets use). -/
def pyLower (s : String) : String :=
  String.mk (s.toList.map Char.toLower)

/-- `sub` occurs as a contiguous run inside `l`. -/
def listInfix (sub : List Char) : List Char → Bool
  | [] => sub.isEmpty
  | c :: rest => sub.isPrefixOf (c :: rest) || listInfix sub rest

/-- Python `sub in s` substring containment. -/
def strContains (s sub : String) : Bool :=
  listInfix sub.toList s.toList

/-- Python `str.strip()`: drop whitespace from both ends. -/
def pyStrip (l : List Char) : List Char :=
  ((l.dropWhile pySpace).reverse.dropWhile pySpace).reverse

/-- Fuelled worker for `pySplit` (fuel keeps the recursion structural; the
wrapper supplies more fuel than the number of characters, so the fuel-0
branch is unreachable). -/
def splitOnFuel (sep : List Char) : Nat → List Char → List Char → List (List Char)
  | 0, l, acc => [acc.reverse ++ l]
  | fuel + 1, l, acc =>
    match l with
    | [] => [acc.reverse]
    | c :: rest =>
      if sep.isPrefixOf (c :: rest) then
        acc.reverse :: splitOnFuel sep fuel (List.drop (sep.length - 1) rest) []
      else
        splitOnFuel sep fuel rest (c :: acc)

/-- Python `s.split(sep)` for a non-empty separator: non-overlapping
leftmost splits, keeping empty segments. -/
def pySplit (sep : String) (l : List Char) : List (List Char) :=
  splitOnFuel sep.toList (l.length + 1) l []

/-! ## Data model: trip profile (`agent.py` `travel_data` records)

Each Python sub-dictionary becomes a structure whose fields are `Option`s
(`none` = the key is absent).  The profile record itself also uses `Option`
per top-level key, because the reset records written by `bot.py` do not
contain every key of the default record. -/

/-- The `weather_preferences` sub-dictionary. -/
structure WeatherPrefs where
  temperature : Option String
  precipitation : Option String
deriving DecidableEq

/-- The `dates` sub-dictionary (`text`, `start`, `end` keys; `end` is a Lean
keyword, hence the trailing underscore). -/
structure DatesInfo where
  text : Option String
  start : Option String
  end_ : Option String
deriving DecidableEq

/-- The `accommodation` sub-dictionary. -/
structure AccommodationInfo where
  preference : Option String
deriving DecidableEq

/-- The `food` sub-dictionary (`preference` set by the extractor;
`cuisine`/`price` read by the enrichment step). -/
structure FoodInfo where
  preference : Option String
  cuisine : Option String
  price : Option String
deriving DecidableEq

/-- One per-user `travel_data` record.  A `none` top-level field models an
absent dictionary key. -/
structure TravelData where
  stage : Nat
  locations : Option (List String)
  dates : Option DatesInfo
  weather_preferences : Option WeatherPrefs
  preferences : Option (List String)
  accommodation : Option AccommodationInfo
  food : Option FoodInfo
  itinerary : Option Unit
deriving DecidableEq

/-- `PLANNING_STAGES["INITIAL"]`. -/
def PLANNING_STAGES_INITIAL : Nat := 0
/-- `PLANNING_STAGES["LOCATION"]`. -/
def PLANNING_STAGES_LOCATION : Nat := 1
/-- `PLANNING_STAGES["DATES"]`. -/
def PLANNING_STAGES_DATES : Nat := 2
/-- `PLANNING_STAGES["WEATHER_PREF"]`. -/
def PLANNING_STAGES_WEATHER_PREF : Nat := 3
/-- `PLANNING_STAGES["PREFERENCES"]`. -/
def PLANNING_STAGES_PREFERENCES : Nat := 4
/-- `PLANNING_STAGES["ACCOMMODATION"]`. -/
def PLANNING_STAGES_ACCOMMODATION : Nat := 5
/-- `PLANNING_STAGES["FOOD"]`. -/
def PLANNING_STAGES_FOOD : Nat := 6
/-- `PLANNING_STAGES["ITINERARY"]`. -/
def PLANNING_STAGES_ITINERARY : Nat := 7

/-- The lazily-created default record (the `defaultdict` lambda in
`MistralAgent.__init__`): stage `INITIAL` and every key present and empty. -/
def default_travel_data : TravelData :=
  { stage := PLANNING_STAGES_INITIAL
    locations := some []
    dates := some ⟨none, none, none⟩
    weather_preferences := some ⟨none, none⟩
    preferences := some []
    accommodation := some ⟨none⟩
    food := some ⟨none, none, none⟩
    itinerary := some () }

/-- The record that `bot.py` assigns on `!clear` (`clear_history`) and on
`!plan` (`start_plan`).  Both literals are identical; note they contain no
`weather_preferences` key. -/
def reset_travel_data : TravelData :=
  { stage := 0
    locations := some []
    dates := some ⟨none, none, none⟩
    weather_preferences := none
    preferences := some []
    accommodation := some ⟨none⟩
    food := some ⟨none, none, none⟩
    itinerary := some () }

/-- Every top-level key of the profile dictionary is present (true of the
default record; false of the reset records, which lack
`weather_preferences`). -/
def wellFormed (ud : TravelData) : Bool :=
  ud.locations.isSome && ud.dates.isSome && ud.weather_preferences.isSome &&
    ud.preferences.isSome && ud.accommodation.isSome && ud.food.isSome

/-! ## Dialogue history (`agent.py` `add_to_history`) -/

/-- One entry of a per-user conversation history. -/
structure ChatMessage where
  role : String
  content : String
deriving DecidableEq

/-- `MAX_HISTORY` from `agent.py`. -/
def MAX_HISTORY : Nat := 10

/-- `MistralAgent.add_to_history` for one user's list: append, then drop the
oldest pair when the length exceeds `MAX_HISTORY * 2`. -/
def add_to_history (history : List ChatMessage) (m : ChatMessage) : List ChatMessage :=
  let h := history ++ [m]
  if MAX_HISTORY * 2 < h.length then h.drop 2 else h

instance {ε α : Type} [DecidableEq ε] [DecidableEq α] : DecidableEq (Except ε α) := fun x y =>
  match x, y with
  | .error e, .error f => decidable_of_iff (e = f) (by simp)
  | .ok a, .ok b => decidable_of_iff (a = b) (by simp)
  | .error _, .ok _ => isFalse (by intro h; cases h)
  | .ok _, .error _ => isFalse (by intro h; cases h)

/-! ## Fact extractor (`agent.py` `extract_travel_information`)

The location pattern
`(?:visit|go to|travel to|traveling to|want to see)\s+([A-Za-z\s,]+)`
is modelled directly: at each start position the alternatives are tried in
pattern order; a successful alternative must be followed by at least one
whitespace character (`\s+`, greedy) and then a non-empty run of characters
from `[A-Za-z\s,]` (the capture, greedy; if no class character follows the
maximal whitespace run, the regex backtracks and the capture is the last
whitespace character).  Only the first match is used
(`potential_locations[0]`). -/

/-- The regex character class `[A-Za-z\s,]`. -/
def inLocClass (c : Char) : Bool :=
  ('A' ≤ c && c ≤ 'Z') || ('a' ≤ c && c ≤ 'z') || pySpace c || c = ','

/-- `\s+([A-Za-z\s,]+)` applied to the text following a matched phrase:
returns the capture group, or `none` when the tail does not match. -/
def captureAfterPhrase (r : List Char) : Option (List Char) :=
  let ws := r.takeWhile pySpace
  let rest := r.dropWhile pySpace
  if ws.isEmpty then none
  else
    let cls := rest.takeWhile inLocClass
    if cls.isEmpty then
      if 2 ≤ ws.length then some [ws.getLastD ' '] else none
    else some cls

/-- The alternatives of the capture pattern, in pattern order.  Note:
`"destination"` is an indicator (it advances the stage) but is absent from
this capture pattern. -/
def location_pattern_phrases : List String :=
  ["visit", "go to", "travel to", "traveling to", "want to see"]

/-- Try the full pattern anchored at the start of `l`: alternatives in
order, each followed by `\s+` and the capture. -/
def tryPhrasesAt (l : List Char) : Option (List Char) :=
  (location_pattern_phrases.filterMap fun p =>
    if p.toList.isPrefixOf l then captureAfterPhrase (l.drop p.toList.length)
    else none).head?

/-- Leftmost match of the location pattern (`re.findall(...)[0]`'s capture). -/
def findFirstLocMatch : List Char → Option (List Char)
  | [] => none
  | c :: rest =>
    match tryPhrasesAt (c :: rest) with
    | some cap => some cap
    | none => findFirstLocMatch rest

/-- `[loc.strip() for loc in potential_locations[0].split(",")]`. -/
def locations_of_capture (cap : List Char) : List String :=
  (pySplit "," cap).map fun w => String.mk (pyStrip w)

/-- `location_indicators` (stages INITIAL/LOCATION). -/
def location_indicators : List String :=
  ["visit", "go to", "travel to", "traveling to", "destination", "want to see"]

/-- `date_indicators` (stage DATES). -/
def date_indicators : List String :=
  ["from", "to", "between", "during", "in", "next week", "next month",
   "this summer", "this winter", "flexible"]

/-- `weather_indicators` (stage WEATHER_PREF). -/
def weather_indicators : List String :=
  ["warm", "cool", "sunny", "rainy", "dry", "moderate", "hot", "cold",
   "no preference"]

/-- `preference_indicators` (stage PREFERENCES). -/
def preference_indicators : List String :=
  ["luxury", "budget", "adventure", "cultural", "family", "romantic", "solo",
   "group"]

/-- `accommodation_indicators` (stage ACCOMMODATION). -/
def accommodation_indicators : List String :=
  ["hotel", "hostel", "resort", "airbnb", "vacation rental",
   "bed and breakfast", "camping"]

/-- `food_indicators` (stage FOOD). -/
def food_indicators : List String :=
  ["cuisine", "food", "restaurant", "dining", "vegetarian", "vegan", "local",
   "international"]

/-- The keyword set the extractor tests at each stage. -/
def stage_keywords : Nat → List String
  | 0 | 1 => location_indicators
  | 2 => date_indicators
  | 3 => weather_indicators
  | 4 => preference_indicators
  | 5 => accommodation_indicators
  | 6 => food_indicators
  | _ => []

/-- `MistralAgent.extract_travel_information` for one user's record.
An `.error "KeyError"` result models the `KeyError` Python raises when a
branch indexes a missing dictionary key (in Python the `stage` assignment
preceding the raising access has already happened; the `Except` embedding
only reports the exception, which is all the theorems below use). -/
def extract_travel_information (ud : TravelData) (message : String) : Except String TravelData :=
  let lower := pyLower message
  if ud.stage = PLANNING_STAGES_INITIAL ∨ ud.stage = PLANNING_STAGES_LOCATION then
    if location_indicators.any (fun indicator => strContains lower indicator) then
      match findFirstLocMatch lower.toList, ud.locations with
      | none, _ => .ok { ud with stage := PLANNING_STAGES_DATES }
      | some _, none => .error "KeyError"
      | some cap, some locs =>
        .ok { ud with stage := PLANNING_STAGES_DATES
                      locations := some (locs ++ locations_of_capture cap) }
    else .ok ud
  else if ud.stage = PLANNING_STAGES_DATES then
    if date_indicators.any (fun indicator => strContains lower indicator) then
      match ud.dates with
      | none => .error "KeyError"
      | some d =>
        let d1 := { d with text := some message }
        let d2 :=
          if strContains lower "from" && strContains lower "to" then
            let parts := pySplit "to" ((pySplit "from" lower.toList).getD 1 [])
            if 2 ≤ parts.length then
              { d1 with start := some (String.mk (pyStrip (parts.getD 0 [])))
                        end_ := some (String.mk (pyStrip (parts.getD 1 []))) }
            else d1
          else d1
        .ok { ud with stage := PLANNING_STAGES_WEATHER_PREF, dates := some d2 }
    else .ok ud
  else if ud.stage = PLANNING_STAGES_WEATHER_PREF then
    if weather_indicators.any (fun indicator => strContains lower indicator) then
      match ud.weather_preferences with
      | none => .error "KeyError"
      | some wp =>
        let temperature :=
          if ["warm", "hot", "sunny"].any (fun term => strContains lower term) then "warm"
          else if ["cool", "cold"].any (fun term => strContains lower term) then "cool"
          else "moderate"
        let precipitation :=
          if ["dry", "no rain", "sunny"].any (fun term => strContains lower term) then "low"
          else if ["rain", "rainy", "precipitation"].any (fun term => strContains lower term) then "high"
          else "moderate"
        .ok { ud with stage := PLANNING_STAGES_PREFERENCES
                      weather_preferences :=
                        some { wp with temperature := some temperature
                                       precipitation := some precipitation } }
    else .ok ud
  else if ud.stage = PLANNING_STAGES_PREFERENCES then
    if preference_indicators.any (fun indicator => strContains lower indicator) then
      match ud.preferences with
      | none => .error "KeyError"
      | some ps =>
        .ok { ud with stage := PLANNING_STAGES_ACCOMMODATION
                      preferences := some (ps ++ [message]) }
    else .ok ud
  else if ud.stage = PLANNING_STAGES_ACCOMMODATION then
    if accommodation_indicators.any (fun indicator => strContains lower indicator) then
      match ud.accommodation with
      | none => .error "KeyError"
      | some a =>
        .ok { ud with stage := PLANNING_STAGES_FOOD
                      accommodation := some { a with preference := some message } }
    else .ok ud
  else if ud.stage = PLANNING_STAGES_FOOD then
    if food_indicators.any (fun indicator => strContains lower indicator) then
      match ud.food with
      | none => .error "KeyError"
      | some f =>
        .ok { ud with stage := PLANNING_STAGES_ITINERARY
                      food := some { f with preference := some message } }
    else .ok ud
  else .ok ud

/-! ## Weather service (`weather_stack_service.py`)

A WeatherStack response dictionary is modelled by `WeatherResult`; numeric
JSON values are modelled as `Int` (the claims only exercise integer
temperatures).  The `[0]` index into `weather_descriptions` raises
`IndexError` on an empty list, hence the `Except` results. -/

/-- The `current` sub-dictionary of a WeatherStack response. -/
structure CurrentWeather where
  temperature : Option Int
  feelslike : Option Int
  weather_descriptions : Option (List String)
  humidity : Option Int
  precip : Option Int
  wind_speed : Option Int
deriving DecidableEq

/-- The `location` sub-dictionary of a WeatherStack response. -/
structure LocationInfo where
  name : Option String
deriving DecidableEq

/-- A WeatherStack response dictionary (or the `{"error": ...}` sentinel the
agent substitutes when the call raises). -/
structure WeatherResult where
  error : Option String
  current : Option CurrentWeather
  location : Option LocationInfo
deriving DecidableEq

/-- `WeatherStackService.get_weather_description`. -/
def get_weather_description (weather_data : WeatherResult) : Except String String :=
  match weather_data.current with
  | none => .ok "Weather information is unavailable."
  | some current =>
    let temp := match current.temperature with | some t => toString t | none => "N/A"
    let feels_like := match current.feelslike with | some t => toString t | none => "N/A"
    match current.weather_descriptions.getD ["Unknown"] with
    | [] => .error "IndexError"
    | description :: _ =>
      let humidity := match current.humidity with | some h => toString h | none => "N/A"
      let precip := match current.precip with | some p => toString p | none => "N/A"
      let wind_speed := match current.wind_speed with | some w => toString w | none => "N/A"
      let location_name := ((weather_data.location.getD ⟨none⟩).name).getD "the requested location"
      .ok (s!"Current conditions in {location_name}: {description}, {temp}째C (feels like {feels_like}째C). "
        ++ s!"Humidity: {humidity}%, Precipitation: {precip}mm, Wind speed: {wind_speed} km/h.")

/-- Python truthiness of a `preferences` dictionary that can only hold the
`temperature` and `precipitation` keys: truthy iff non-empty. -/
def wpTruthy (p : WeatherPrefs) : Bool :=
  p.temperature.isSome || p.precipitation.isSome

/-- `WeatherStackService.analyze_best_travel_dates`, given the current-weather
response for the location (`current` parameter) and the preferences
dictionary (`none` models Python `None`).  The function's result dictionary
is projected to its `"recommendation"` value, the only part the agent reads. -/
def analyze_best_travel_dates (current : WeatherResult) (preferences : Option WeatherPrefs) :
    Except String String :=
  match current.current with
  | none => .ok "Weather data unavailable for this location"
  | some cw =>
    let temp := cw.temperature.getD 0
    match cw.weather_descriptions.getD ["Unknown"] with
    | [] => .error "IndexError"
    | weather_desc :: _ =>
      let is_sunny := strContains (pyLower weather_desc) "sunny" ||
        strContains (pyLower weather_desc) "clear"
      let is_rainy := strContains (pyLower weather_desc) "rain" ||
        strContains (pyLower weather_desc) "shower"
      let usePrefs := match preferences with
        | some p => wpTruthy p
        | none => false
      if usePrefs then
        let p := preferences.getD ⟨none, none⟩
        let temp_pref := p.temperature.getD "moderate"
        let precip_pref := p.precipitation.getD "any"
        if temp_pref = "warm" ∧ temp < 15 then
          .ok "Current temperatures are cooler than your preference. Consider delaying your trip if possible for warmer weather."
        else if temp_pref = "cool" ∧ temp > 25 then
          .ok "Current temperatures are warmer than your preference. Consider scheduling your trip during a cooler season."
        else if precip_pref = "low" ∧ is_rainy then
          .ok "There's currently precipitation in the area. Check the forecast for your travel dates."
        else if is_sunny ∧ 15 ≤ temp ∧ temp ≤ 25 then
          .ok "Current weather conditions are ideal! This is a great time to visit."
        else
          .ok s!"Current conditions: {weather_desc}, {temp}째C. Check specific dates for more accurate forecasts."
      else
        if is_sunny ∧ ¬is_rainy ∧ 15 ≤ temp ∧ temp ≤ 25 then
          .ok "Current weather conditions are pleasant and ideal for sightseeing."
        else
          .ok s!"Current conditions: {weather_desc}, {temp}째C. Consider your weather preferences when planning."

/-! ## Enrichment orchestrator (`agent.py` `enhance_response_with_api_data`)

The three provider result dictionaries and the secondary chat completion are
modelled as an explicit environment (`ApiEnv`): each field holds the value
the corresponding remote call would return for the user's first location.
The serialized `api_data_message` is a pure function of the data context,
the profile and the draft reply, so the secondary round-trip is abstracted
as `llm : DataContext → TravelData → String → Except String String`. -/

/-- A Google Maps place record (the fields the agent reads; the numeric
`rating` is modelled as its JSON text). -/
structure Place where
  name : Option String
  rating : Option String
  vicinity : Option String
deriving DecidableEq

/-- A Yelp category record. -/
structure Category where
  title : Option String
deriving DecidableEq

/-- A Yelp business record. -/
structure Restaurant where
  name : Option String
  rating : Option String
  price : Option String
  categories : List Category
deriving DecidableEq

/-- A Google Maps nearby-search response: `results` present on success,
absent on the `{"error": ...}` sentinel. -/
structure PlacesResult where
  error : Option String
  results : Option (List Place)
deriving DecidableEq

/-- A Yelp search response: `businesses` present on success. -/
structure YelpResult where
  error : Option String
  businesses : Option (List Restaurant)
deriving DecidableEq

/-- A `get_weather_recommendation` result dictionary (the fields the
WEATHER_PREF branch reads). -/
structure RecResult where
  error : Option String
  recommendation : Option String
deriving DecidableEq

/-- The per-turn `data_context` digest built in the ITINERARY branch. -/
structure DataContext where
  attractions : List Place
  hotels : List Place
  restaurants : List Restaurant
  weather : Option CurrentWeather
deriving DecidableEq

/-- The `data_context` construction:
each provider contributes its first five records, or an empty list when its
response has no `results`/`businesses` key; the weather entry is the
response's `current` dictionary (`none` models the empty dictionary). -/
def build_data_context (attractions hotels : PlacesResult) (restaurants : YelpResult)
    (weather : WeatherResult) : DataContext :=
  { attractions := match attractions.results with | some rs => rs.take 5 | none => []
    hotels := match hotels.results with | some rs => rs.take 5 | none => []
    restaurants := match restaurants.businesses with | some bs => bs.take 5 | none => []
    weather := weather.current }

/-- The remote-call environment for one enrichment run: the values returned
by `get_weather_data`, `get_weather_recommendation`, `get_attractions`,
`get_hotels`, `get_restaurants` for the user's first location, and the
secondary chat completion as a function of the digest, profile and draft. -/
structure ApiEnv where
  weather_data : WeatherResult
  recommendation : RecResult
  attractions : PlacesResult
  hotels : PlacesResult
  restaurants : YelpResult
  llm : DataContext → TravelData → String → Except String String

/-- The digest the ITINERARY branch builds from an environment. -/
def itinerary_digest (env : ApiEnv) : DataContext :=
  build_data_context env.attractions env.hotels env.restaurants env.weather_data

/-- `MistralAgent.enhance_response_with_api_data`.  `.error "KeyError"`
models the exception raised when a branch indexes a missing profile key
(the agent's caller catches it and falls back to the draft). -/
def enhance_response_with_api_data (env : ApiEnv) (user_data : TravelData)
    (response : String) : Except String String :=
  if user_data.stage = PLANNING_STAGES_DATES then
    match user_data.locations with
    | none => .error "KeyError"
    | some [] => .ok response
    | some (_main_location :: _) =>
      let weather_data := env.weather_data
      if weather_data.error.isNone && weather_data.current.isSome then
        match get_weather_description weather_data with
        | .error e => .error e
        | .ok weather_desc =>
          .ok (response ++ "\n\n**Current Weather Information:**\n" ++ weather_desc ++
            "\n\nThis can help you decide on the best time to visit. What kind of weather do you prefer for your trip?")
      else .ok response
  else if user_data.stage = PLANNING_STAGES_WEATHER_PREF then
    match user_data.locations with
    | none => .error "KeyError"
    | some [] => .ok response
    | some (_main_location :: _) =>
      let recommendation := env.recommendation
      if recommendation.error.isNone then
        .ok (response ++ "\n\n**Weather Recommendation:**\n" ++
          (recommendation.recommendation.getD "No specific recommendation available."))
      else .ok response
  else if user_data.stage = PLANNING_STAGES_ITINERARY then
    match user_data.locations with
    | none => .error "KeyError"
    | some [] => .ok response
    | some (_main_location :: _) =>
      match user_data.food with
      | none => .error "KeyError"
      | some _ =>
        let data_context := itinerary_digest env
        match env.llm data_context user_data response with
        | .ok enhanced => .ok enhanced
        | .error _ => .ok response
  else .ok response

/-- Environment for the single-provider-failure witness: the attractions
call errored, hotels and restaurants succeeded, the secondary completion
succeeds. -/
def c5_env : ApiEnv :=
  { weather_data := ⟨none, none, none⟩
    recommendation := ⟨none, none⟩
    attractions := ⟨some "timeout", none⟩
    hotels := ⟨none, some [⟨some "Hotel Lux", some "4.5", some "1 Rue"⟩]⟩
    restaurants := ⟨none, some [⟨some "Chez R", some "4.0", some "$$", []⟩]⟩
    llm := fun _ _ _ => .ok "enhanced itinerary" }

/-- A profile sitting at the ITINERARY stage with one known location. -/
def itinerary_profile : TravelData :=
  { default_travel_data with stage := PLANNING_STAGES_ITINERARY
                             locations := some ["paris"] }

/-! ## Theorems -/

/-- C1: the reset records written by `!clear` and `!plan` are supposed to
reinitialize the profile to the full empty record, but they omit the
`weather_preferences` key that the default record contains; consequently,
replaying a normal conversation from a reset record raises `KeyError` as
soon as the WEATHER_PREF stage stores a preference. -/
theorem c1_reset_omits_weather_preferences :
    reset_travel_data.weather_preferences = none ∧
    default_travel_data.weather_preferences = some ⟨none, none⟩ ∧
    ((extract_travel_information reset_travel_data "I want to visit Paris").bind fun u1 =>
      (extract_travel_information u1 "sometime in June").bind fun u2 =>
        extract_travel_information u2 "warm and sunny") = .error "KeyError" := by
  decide

/-- C2 (counterexample): at stage INITIAL the text `"I want to visit Paris"`
contains a location keyword, yet the extractor moves the stage to DATES
(= 2), two steps past INITIAL (= 0), skipping LOCATION — refuting
"advances by exactly one step" for stage INITIAL. -/
theorem c2_counterexample_initial_skips_location :
    default_travel_data.stage = PLANNING_STAGES_INITIAL ∧
    (extract_travel_information default_travel_data "I want to visit Paris").map
        TravelData.stage = .ok PLANNING_STAGES_DATES ∧
    PLANNING_STAGES_DATES ≠ PLANNING_STAGES_INITIAL + 1 := by
  decide

/-- C3 (counterexample): `add_to_history` appends one entry per call, so
after a single append from an empty history the length is 1 — odd, refuting
"the history length is always even" after each append. -/
theorem c3_counterexample_single_append_odd :
    (add_to_history [] ⟨"user", "hi"⟩).length = 1 ∧ (1 : Nat) % 2 ≠ 0 := by
  decide

/-- Length of a single `add_to_history` step. -/
theorem add_to_history_length (h : List ChatMessage) (m : ChatMessage) :
    (add_to_history h m).length =
      if MAX_HISTORY * 2 < h.length + 1 then h.length - 1 else h.length + 1 := by
  simp only [add_to_history, List.length_append, List.length_cons, List.length_nil]
  split <;> simp [List.length_drop]

/-- Invariant of folded appends: starting below the cap, the history stays
at or below the cap and its length has the parity of the total number of
entries appended so far. -/
theorem history_fold_invariant (msgs : List ChatMessage) :
    ∀ h : List ChatMessage, h.length ≤ MAX_HISTORY * 2 →
      (msgs.foldl add_to_history h).length ≤ MAX_HISTORY * 2 ∧
      (msgs.foldl add_to_history h).length % 2 = (h.length + msgs.length) % 2 := by
  induction msgs with
  | nil => intro h hh; simpa using hh
  | cons m ms ih =>
    intro h hh
    have h20 : MAX_HISTORY * 2 = 20 := rfl
    have hlen := add_to_history_length h m
    rw [h20] at hh hlen
    have hstep : (add_to_history h m).length ≤ MAX_HISTORY * 2 ∧
        (add_to_history h m).length % 2 = (h.length + 1) % 2 := by
      rw [h20]
      split at hlen <;> omega
    obtain ⟨ih1, ih2⟩ := ih (add_to_history h m) hstep.1
    refine ⟨by simpa using ih1, ?_⟩
    have := hstep.2
    simp only [List.foldl_cons, List.length_cons]
    rw [ih2]
    omega

/-- C3 (amended): after any sequence of single appends starting from the
empty history, the length never exceeds `2 × MAX_HISTORY`, and its parity
equals the parity of the number of appends (so it is even exactly after
each completed user/assistant pair, not after every single append). -/
theorem c3_amended_history_invariant (msgs : List ChatMessage) :
    (msgs.foldl add_to_history []).length ≤ MAX_HISTORY * 2 ∧
    (msgs.foldl add_to_history []).length % 2 = msgs.length % 2 := by
  simpa using history_fold_invariant msgs [] (by simp)

/-- C4 (counterexample): `"my destination is Paris"` at stage INITIAL
contains the phrase `"destination"` followed by location words, and the
stage advances to DATES, but nothing is appended to `locations` — the
capture pattern lacks the `destination` alternative, refuting the claim for
that phrase. -/
theorem c4_counterexample_destination_not_captured :
    extract_travel_information default_travel_data "my destination is Paris" =
      .ok { default_travel_data with stage := PLANNING_STAGES_DATES } ∧
    (extract_travel_information default_travel_data "my destination is Paris").map
        TravelData.locations = .ok (some []) := by
  decide

/-- C8: the scenario text `"I want to visit Paris, Rome"` at stage INITIAL
yields stage DATES and locations `["paris", "rome"]`. -/
theorem c8_scenario_visit_paris_rome :
    extract_travel_information default_travel_data "I want to visit Paris, Rome" =
      .ok { default_travel_data with stage := PLANNING_STAGES_DATES
                                     locations := some ["paris", "rome"] } := by
  decide

/-- C7: whenever the preferences dictionary records temperature preference
`"warm"` and the current temperature is below 15, the first advisory rule
fires — the recommendation is the delay-for-warmer-weather sentence —
regardless of the weather description and of any precipitation
preference. -/
theorem c7_warm_rule_fires_first (wr : WeatherResult) (cw : CurrentWeather)
    (p : WeatherPrefs) (t : Int) (d : String) (ds : List String)
    (hcur : wr.current = some cw)
    (htemp : cw.temperature = some t)
    (ht : t < 15)
    (hdesc : cw.weather_descriptions.getD ["Unknown"] = d :: ds)
    (hpref : p.temperature = some "warm") :
    analyze_best_travel_dates wr (some p) =
      .ok "Current temperatures are cooler than your preference. Consider delaying your trip if possible for warmer weather." := by
  simp [analyze_best_travel_dates, hcur, htemp, hdesc, hpref, wpTruthy, ht]

/-- C7 witness: temperature 10, rainy description, low-precipitation
preference — rule 1 fires. -/
theorem c7_witness :
    analyze_best_travel_dates
      ⟨none, some ⟨some 10, none, some ["Light rain"], none, none, none⟩, none⟩
      (some ⟨some "warm", some "low"⟩) =
      .ok "Current temperatures are cooler than your preference. Consider delaying your trip if possible for warmer weather." :=
  c7_warm_rule_fires_first _ ⟨some 10, none, some ["Light rain"], none, none, none⟩
    ⟨some "warm", some "low"⟩ 10 "Light rain" [] rfl rfl (by decide) rfl rfl

/-- C6: at stage ITINERARY, when the secondary generation call errors, the
enrichment returns the original draft reply unchanged. -/
theorem c6_secondary_failure_returns_draft (env : ApiEnv) (ud : TravelData)
    (response e : String)
    (hwf : wellFormed ud = true)
    (hstage : ud.stage = PLANNING_STAGES_ITINERARY)
    (hllm : env.llm (itinerary_digest env) ud response = .error e) :
    enhance_response_with_api_data env ud response = .ok response := by
  simp only [wellFormed, Bool.and_eq_true] at hwf
  obtain ⟨⟨⟨⟨⟨hl, _⟩, _⟩, _⟩, _⟩, hf⟩ := hwf
  obtain ⟨locs, hlocs⟩ := Option.isSome_iff_exists.mp hl
  obtain ⟨f, hfe⟩ := Option.isSome_iff_exists.mp hf
  cases locs with
  | nil =>
    simp [enhance_response_with_api_data, hstage, hlocs, PLANNING_STAGES_ITINERARY,
      PLANNING_STAGES_DATES, PLANNING_STAGES_WEATHER_PREF]
  | cons a as =>
    simp [enhance_response_with_api_data, hstage, hlocs, hfe, hllm,
      PLANNING_STAGES_ITINERARY, PLANNING_STAGES_DATES, PLANNING_STAGES_WEATHER_PREF]

/-- C6 witness: a concrete environment whose secondary completion errors;
the draft comes back verbatim. -/
theorem c6_witness :
    enhance_response_with_api_data
      { weather_data := ⟨none, none, none⟩
        recommendation := ⟨none, none⟩
        attractions := ⟨none, none⟩
        hotels := ⟨none, none⟩
        restaurants := ⟨none, none⟩
        llm := fun _ _ _ => .error "rate limited" }
      itinerary_profile "Day 1: arrive." = .ok "Day 1: arrive." :=
  c6_secondary_failure_returns_draft _ itinerary_profile "Day 1: arrive."
    "rate limited" (by decide) rfl rfl

/-- C5: at stage ITINERARY with a known location, when exactly one of the
three providers returns the error sentinel, the digest holds the empty
list for that provider and the first five records of each of the other
two, and the enrichment still hands that digest to the secondary
generation call (whose outcome alone determines the final reply). -/
theorem c5_partial_provider_failure (env : ApiEnv) (ud : TravelData) (response : String)
    (hwf : wellFormed ud = true)
    (hstage : ud.stage = PLANNING_STAGES_ITINERARY)
    (hloc : ∃ l ls, ud.locations = some (l :: ls)) :
    (∀ m hs rs, env.attractions = ⟨some m, none⟩ → env.hotels.results = some hs →
        env.restaurants.businesses = some rs →
        (itinerary_digest env).attractions = [] ∧
        (itinerary_digest env).hotels = hs.take 5 ∧
        (itinerary_digest env).restaurants = rs.take 5) ∧
    (∀ m as rs, env.hotels = ⟨some m, none⟩ → env.attractions.results = some as →
        env.restaurants.businesses = some rs →
        (itinerary_digest env).hotels = [] ∧
        (itinerary_digest env).attractions = as.take 5 ∧
        (itinerary_digest env).restaurants = rs.take 5) ∧
    (∀ m as hs, env.restaurants = ⟨some m, none⟩ → env.attractions.results = some as →
        env.hotels.results = some hs →
        (itinerary_digest env).restaurants = [] ∧
        (itinerary_digest env).attractions = as.take 5 ∧
        (itinerary_digest env).hotels = hs.take 5) ∧
    enhance_response_with_api_data env ud response =
      (match env.llm (itinerary_digest env) ud response with
       | .ok s => .ok s
       | .error _ => .ok response) := by
  simp only [wellFormed, Bool.and_eq_true] at hwf
  obtain ⟨⟨⟨⟨⟨_, _⟩, _⟩, _⟩, _⟩, hf⟩ := hwf
  obtain ⟨f, hfe⟩ := Option.isSome_iff_exists.mp hf
  obtain ⟨l, ls, hlocs⟩ := hloc
  refine ⟨?_, ?_, ?_, ?_⟩
  · intro m hs rs ha hh hr
    simp [itinerary_digest, build_data_context, ha, hh, hr]
  · intro m as rs hh ha hr
    simp [itinerary_digest, build_data_context, ha, hh, hr]
  · intro m as hs hr ha hh
    simp [itinerary_digest, build_data_context, ha, hh, hr]
  · cases hllm : env.llm (itinerary_digest env) ud response <;>
      simp [enhance_response_with_api_data, hstage, hlocs, hfe, hllm,
        PLANNING_STAGES_ITINERARY, PLANNING_STAGES_DATES, PLANNING_STAGES_WEATHER_PREF]

/-- C5 witness: attractions errored, hotels and restaurants returned one
record each; the digest pairs the empty attraction list with both record
lists and the secondary call's reply becomes the final reply. -/
theorem c5_witness :
    (itinerary_digest c5_env).attractions = [] ∧
    (itinerary_digest c5_env).hotels = [⟨some "Hotel Lux", some "4.5", some "1 Rue"⟩] ∧
    (itinerary_digest c5_env).restaurants = [⟨some "Chez R", some "4.0", some "$$", []⟩] ∧
    enhance_response_with_api_data c5_env itinerary_profile "draft" = .ok "enhanced itinerary" := by
  have h := c5_partial_provider_failure c5_env itinerary_profile "draft"
    (by decide) rfl ⟨"paris", [], rfl⟩
  obtain ⟨h1, _, _, h4⟩ := h
  obtain ⟨ha, hh, hr⟩ := h1 "timeout" [⟨some "Hotel Lux", some "4.5", some "1 Rue"⟩]
    [⟨some "Chez R", some "4.0", some "$$", []⟩] rfl rfl rfl
  exact ⟨ha, by simpa using hh, by simpa using hr, by rw [h4]; rfl⟩

/-- C9: at stage WEATHER_PREF, any text whose lowercase form contains
`"sunny"` sets the temperature preference to `"warm"` and the precipitation
preference to `"low"` in the same turn, since `"sunny"` is in both the
warm-indicator and the dry-indicator sets. -/
theorem c9_sunny_sets_warm_and_low (ud : TravelData) (msg : String)
    (hwp : ud.weather_preferences.isSome = true)
    (hstage : ud.stage = PLANNING_STAGES_WEATHER_PREF)
    (hsunny : strContains (pyLower msg) "sunny" = true) :
    ∃ ud', extract_travel_information ud msg = .ok ud' ∧
      ud'.stage = PLANNING_STAGES_PREFERENCES ∧
      ud'.weather_preferences = some ⟨some "warm", some "low"⟩ := by
  obtain ⟨wp, hwpe⟩ := Option.isSome_iff_exists.mp hwp
  simp [extract_travel_information, hstage, hwpe, weather_indicators, hsunny,
    PLANNING_STAGES_INITIAL, PLANNING_STAGES_LOCATION, PLANNING_STAGES_DATES,
    PLANNING_STAGES_WEATHER_PREF, PLANNING_STAGES_PREFERENCES]

/-- C9 witness: `"Sunny please"` at stage WEATHER_PREF. -/
theorem c9_witness :
    ∃ ud', extract_travel_information
        { default_travel_data with stage := PLANNING_STAGES_WEATHER_PREF }
        "Sunny please" = .ok ud' ∧
      ud'.stage = PLANNING_STAGES_PREFERENCES ∧
      ud'.weather_preferences = some ⟨some "warm", some "low"⟩ :=
  c9_sunny_sets_warm_and_low
    { default_travel_data with stage := PLANNING_STAGES_WEATHER_PREF }
    "Sunny please" (by decide) rfl (by decide)

/-- C10: at stage DATES, any text whose lowercase form contains `"in"` or
`"to"` anywhere — word boundaries are not checked, so `"Berlin"` or
`"Toronto"` qualify — advances the stage to WEATHER_PREF and stores the
full original message under `dates.text`. -/
theorem c10_dates_plain_substring (ud : TravelData) (msg : String)
    (hd : ud.dates.isSome = true)
    (hstage : ud.stage = PLANNING_STAGES_DATES)
    (hkw : strContains (pyLower msg) "in" = true ∨ strContains (pyLower msg) "to" = true) :
    ∃ ud' d, extract_travel_information ud msg = .ok ud' ∧
      ud'.stage = PLANNING_STAGES_WEATHER_PREF ∧
      ud'.dates = some d ∧ d.text = some msg := by
  obtain ⟨d0, hde⟩ := Option.isSome_iff_exists.mp hd
  have hany : date_indicators.any (fun indicator => strContains (pyLower msg) indicator) = true := by
    rcases hkw with h | h <;> simp [date_indicators, h]
  simp [extract_travel_information, hstage, hde, hany,
    PLANNING_STAGES_INITIAL, PLANNING_STAGES_LOCATION, PLANNING_STAGES_DATES,
    PLANNING_STAGES_WEATHER_PREF]
  split <;> first | rfl | (split <;> rfl)

/-- C10 witness: `"Berlin"` at stage DATES matches via the substring
`"in"` inside the word and the whole message is stored as the date text. -/
theorem c10_witness :
    ∃ ud' d, extract_travel_information
        { default_travel_data with stage := PLANNING_STAGES_DATES } "Berlin" = .ok ud' ∧
      ud'.stage = PLANNING_STAGES_WEATHER_PREF ∧
      ud'.dates = some d ∧ d.text = some "Berlin" :=
  c10_dates_plain_substring { default_travel_data with stage := PLANNING_STAGES_DATES }
    "Berlin" (by decide) rfl (Or.inl (by decide))

/-- C4 (amended): at stages INITIAL/LOCATION, text containing any of the six
indicator phrases advances the stage to DATES, and the locations appended
are exactly the comma-split, stripped capture of the first match of the
five-alternative pattern `visit|go to|travel to|traveling to|want to see`
(`"destination"` advances the stage but, being absent from the capture
pattern, never contributes locations by itself). -/
theorem c4_amended_location_capture (ud : TravelData) (msg : String) (locs : List String)
    (hloc : ud.locations = some locs)
    (hstage : ud.stage = PLANNING_STAGES_INITIAL ∨ ud.stage = PLANNING_STAGES_LOCATION)
    (hkw : location_indicators.any (fun indicator => strContains (pyLower msg) indicator) = true) :
    ∃ ud', extract_travel_information ud msg = .ok ud' ∧
      ud'.stage = PLANNING_STAGES_DATES ∧
      ud'.locations = some (locs ++
        (match findFirstLocMatch (pyLower msg).toList with
         | some cap => locations_of_capture cap
         | none => [])) := by
  cases hm : findFirstLocMatch (pyLower msg).data with
  | none =>
    rcases hstage with h | h <;>
      simp [extract_travel_information, h, hkw, hm, hloc,
        PLANNING_STAGES_INITIAL, PLANNING_STAGES_LOCATION, PLANNING_STAGES_DATES]
  | some cap =>
    rcases hstage with h | h <;>
      simp [extract_travel_information, h, hkw, hm, hloc,
        PLANNING_STAGES_INITIAL, PLANNING_STAGES_LOCATION, PLANNING_STAGES_DATES]

/-- C4 witness: `"travel to Tokyo"` at stage INITIAL appends `["tokyo"]`. -/
theorem c4_witness :
    ∃ ud', extract_travel_information default_travel_data "travel to Tokyo" = .ok ud' ∧
      ud'.stage = PLANNING_STAGES_DATES ∧
      ud'.locations = some ([] ++
        (match findFirstLocMatch (pyLower "travel to Tokyo").toList with
         | some cap => locations_of_capture cap
         | none => [])) :=
  c4_amended_location_capture default_travel_data "travel to Tokyo" [] rfl
    (Or.inl rfl) (by decide)

/-- C2 (amended): from every stage strictly between INITIAL and ITINERARY,
matching keywords advance the stage by exactly one step; from INITIAL,
matching keywords advance the stage two steps straight to DATES, skipping
LOCATION. -/
theorem c2_amended_stage_advance (ud : TravelData) (msg : String)
    (hwf : wellFormed ud = true) :
    ((1 ≤ ud.stage ∧ ud.stage ≤ 6) →
      (stage_keywords ud.stage).any (fun kw => strContains (pyLower msg) kw) = true →
      ∃ ud', extract_travel_information ud msg = .ok ud' ∧ ud'.stage = ud.stage + 1) ∧
    (ud.stage = 0 →
      (stage_keywords ud.stage).any (fun kw => strContains (pyLower msg) kw) = true →
      ∃ ud', extract_travel_information ud msg = .ok ud' ∧ ud'.stage = PLANNING_STAGES_DATES) := by
  simp only [wellFormed, Bool.and_eq_true] at hwf
  obtain ⟨⟨⟨⟨⟨hl, hd⟩, hw⟩, hp⟩, ha⟩, hf⟩ := hwf
  obtain ⟨locs, hlocs⟩ := Option.isSome_iff_exists.mp hl
  obtain ⟨d0, hde⟩ := Option.isSome_iff_exists.mp hd
  obtain ⟨wp, hwpe⟩ := Option.isSome_iff_exists.mp hw
  obtain ⟨ps, hpe⟩ := Option.isSome_iff_exists.mp hp
  obtain ⟨ac, hae⟩ := Option.isSome_iff_exists.mp ha
  obtain ⟨fo, hfe⟩ := Option.isSome_iff_exists.mp hf
  obtain ⟨st, oloc, odat, owp, ops, oac, ofo, oit⟩ := ud
  simp only at hlocs hde hwpe hpe hae hfe
  subst hlocs hde hwpe hpe hae hfe
  constructor
  · rintro ⟨h1, h6⟩ hkw
    simp only at h1 h6 ⊢
    interval_cases st
    · cases hm : findFirstLocMatch (pyLower msg).data <;> simp_all [extract_travel_information, stage_keywords,
          PLANNING_STAGES_INITIAL, PLANNING_STAGES_LOCATION, PLANNING_STAGES_DATES]
    · simp_all [extract_travel_information, stage_keywords,
          PLANNING_STAGES_INITIAL, PLANNING_STAGES_LOCATION, PLANNING_STAGES_DATES,
          PLANNING_STAGES_WEATHER_PREF]
    · simp_all [extract_travel_information, stage_keywords,
          PLANNING_STAGES_INITIAL, PLANNING_STAGES_LOCATION, PLANNING_STAGES_DATES,
          PLANNING_STAGES_WEATHER_PREF, PLANNING_STAGES_PREFERENCES]
    · simp_all [extract_travel_information, stage_keywords,
          PLANNING_STAGES_INITIAL, PLANNING_STAGES_LOCATION, PLANNING_STAGES_DATES,
          PLANNING_STAGES_WEATHER_PREF, PLANNING_STAGES_PREFERENCES,
          PLANNING_STAGES_ACCOMMODATION]
    · simp_all [extract_travel_information, stage_keywords,
          PLANNING_STAGES_INITIAL, PLANNING_STAGES_LOCATION, PLANNING_STAGES_DATES,
          PLANNING_STAGES_WEATHER_PREF, PLANNING_STAGES_PREFERENCES,
          PLANNING_STAGES_ACCOMMODATION, PLANNING_STAGES_FOOD]
    · simp_all [extract_travel_information, stage_keywords,
          PLANNING_STAGES_INITIAL, PLANNING_STAGES_LOCATION, PLANNING_STAGES_DATES,
          PLANNING_STAGES_WEATHER_PREF, PLANNING_STAGES_PREFERENCES,
          PLANNING_STAGES_ACCOMMODATION, PLANNING_STAGES_FOOD,
          PLANNING_STAGES_ITINERARY]
  · rintro hst hkw
    simp only at hst
    subst hst
    cases hm : findFirstLocMatch (pyLower msg).data <;> simp_all [extract_travel_information, stage_keywords,
        PLANNING_STAGES_INITIAL, PLANNING_STAGES_LOCATION, PLANNING_STAGES_DATES]

/-- C2 witness: at stage DATES (one of the one-step stages), `"in June"`
advances the stage to exactly 3. -/
theorem c2_witness :
    ∃ ud', extract_travel_information
        { default_travel_data with stage := PLANNING_STAGES_DATES } "in June" = .ok ud' ∧
      ud'.stage = { default_travel_data with stage := PLANNING_STAGES_DATES }.stage + 1 :=
  (c2_amended_stage_advance { default_travel_data with stage := PLANNING_STAGES_DATES }
    "in June" (by decide)).1 (by decide) (by decide)
